import Mathlib

/-!
Shallow embedding of the pharmacogenomic risk-prediction pipeline
(`main.py` of the repository): the VCF parser `parse_vcf`, the diplotype
caller `determine_diplotype`, the phenotype classifier
`phenotype_from_diplotype`, the risk engine `risk_for_drug`, and the
per-drug step of the `/analyze` handler (`analyze_drug`).

String-manipulation primitives of the source language (split, strip,
upper/lower, substring containment, prefix tests) are modelled by
structurally recursive functions over `List Char`, so that every
definition evaluates inside the kernel.  Line splitting is modelled for
LF-separated text (the source also breaks lines on other Unicode line
boundaries, which no claim depends on).  Confidence scores are modelled
as exact rationals; every confidence constant in the source is an exact
hundredth, so the two-decimal rounding of the source is value-preserving.
-/

/-- Python-style whitespace test used by `str.strip`. -/
def isPySpace (c : Char) : Bool :=
  c = ' ' || c = '\t' || c = '\n' || c = '\r' || c = '\x0b' || c = '\x0c'

/-- `str.strip` on a character list: drop whitespace from both ends. -/
def stripCh (l : List Char) : List Char :=
  ((l.dropWhile isPySpace).reverse.dropWhile isPySpace).reverse

/-- `str.strip` on strings. -/
def pyStrip (s : String) : String := String.mk (stripCh s.data)

/-- `str.upper` (ASCII, which covers every token the pipeline compares). -/
def pyUpper (s : String) : String := String.mk (s.data.map Char.toUpper)

/-- `str.lower` (ASCII). -/
def pyLower (s : String) : String := String.mk (s.data.map Char.toLower)

/-- `s.split(sep)` for a single-character separator, Python semantics:
the empty input yields one empty piece. -/
def pySplitChar (sep : Char) : List Char → List (List Char)
  | [] => [[]]
  | c :: cs =>
    let r := pySplitChar sep cs
    if c = sep then [] :: r
    else
      match r with
      | [] => [[c]]
      | h :: t => (c :: h) :: t

/-- `s.split(sep)` lifted to strings. -/
def splitOnChar (sep : Char) (s : String) : List String :=
  (pySplitChar sep s.data).map String.mk

/-- `str.splitlines` for LF-separated text: a trailing newline does not
produce a final empty line, and the empty string has no lines. -/
def splitlinesCh : List Char → List (List Char)
  | [] => []
  | c :: cs =>
    if c = '\n' then [] :: splitlinesCh cs
    else
      match splitlinesCh cs with
      | [] => [[c]]
      | h :: t => (c :: h) :: t

/-- `content.splitlines()` on strings. -/
def pySplitlines (s : String) : List String :=
  (splitlinesCh s.data).map String.mk

/-- `l.startswith(p)` on character lists. -/
def startsWithCh : List Char → List Char → Bool
  | _, [] => true
  | [], _ :: _ => false
  | a :: as, b :: bs => a == b && startsWithCh as bs

/-- `s.startswith(p)` on strings. -/
def pyStartsWith (s p : String) : Bool := startsWithCh s.data p.data

/-- Substring containment on character lists: the Python `needle in hay`. -/
def containsCh : List Char → List Char → Bool
  | [], needle => needle.isEmpty
  | a :: as, needle => startsWithCh (a :: as) needle || containsCh as needle

/-- The Python membership test `needle in hay` on strings. -/
def pyIn (needle hay : String) : Bool := containsCh hay.data needle.data

/-- `kv.split('=', 1)` guarded by `'=' in kv`: `none` when no `=` occurs,
otherwise the part before the first `=` and everything after it. -/
def splitEq1 : List Char → Option (List Char × List Char)
  | [] => none
  | c :: cs =>
    if c = '=' then some ([], cs)
    else (splitEq1 cs).map (fun p => (c :: p.1, p.2))

/-- List membership as a boolean, mirroring Python `x in list`. -/
def memStr (s : String) : List String → Bool
  | [] => false
  | t :: ts => (t = s) || memStr s ts

/-- A value of the parsed INFO dictionary: either a string (from `K=V`)
or the boolean flag `True` (from a bare `K` segment). -/
inductive InfoVal where
  | str (s : String)
  | flag
deriving DecidableEq

/-- Python `str(value)` on an INFO value (`str(True) = "True"`). -/
def pyStr : InfoVal → String
  | .str s => s
  | .flag => "True"

/-- Python truthiness of an optional INFO value: `None` and the empty
string are falsy; a non-empty string and the flag `True` are truthy. -/
def truthy : Option InfoVal → Bool
  | none => false
  | some (.str s) => s ≠ ""
  | some .flag => true

/-- Insertion into the INFO dictionary: a repeated key overwrites the
stored value in place, as Python dict assignment does. -/
def dictInsert (d : List (String × InfoVal)) (k : String) (v : InfoVal) :
    List (String × InfoVal) :=
  if memStr k (d.map Prod.fst) then
    d.map (fun p => if p.1 = k then (k, v) else p)
  else d ++ [(k, v)]

/-- `dict.get(k)`. -/
def dictGet (d : List (String × InfoVal)) (k : String) : Option InfoVal :=
  (d.find? (fun p => p.1 = k)).map Prod.snd

/-- `SUPPORTED_GENES` of the source. -/
def SUPPORTED_GENES : List String :=
  ["CYP2D6", "CYP2C19", "CYP2C9", "SLCO1B1", "TPMT", "DPYD"]

/-- `SUPPORTED_DRUGS` of the source. -/
def SUPPORTED_DRUGS : List String :=
  ["CODEINE", "WARFARIN", "CLOPIDOGREL", "SIMVASTATIN", "AZATHIOPRINE", "FLUOROURACIL"]

/-- One parsed, gene-relevant VCF data line (the dict the parser appends
to `variants`). -/
structure VariantRecord where
  chrom : String
  pos : String
  vid : String
  ref : String
  alt : String
  info : List (String × InfoVal)
  gene : String
  stars : List String
  rs : Option InfoVal
deriving DecidableEq

/-- The star-token normalization loop of the parser: split the STAR value
on `,`, strip each piece, drop empties, and prefix with `*` unless already
prefixed. -/
def starTokens (raw : String) : List String :=
  (splitOnChar ',' raw).filterMap (fun s =>
    let t := pyStrip s
    if t = "" then none
    else if pyStartsWith t "*" then some t
    else some ("*" ++ t))

/-- `stars` built from `info_dict.get('STAR')`: the whole loop is guarded
by Python truthiness of the raw value (`str(True)` is split when STAR was
a bare flag). -/
def starsOfRaw : Option InfoVal → List String
  | none => []
  | some (.str s) => if s = "" then [] else starTokens s
  | some .flag => starTokens "True"

/-- `rs = info_dict.get('RS') or (vid if vid and vid.lower().startswith('rs') else None)`. -/
def rsOf (info : List (String × InfoVal)) (vid : String) : Option InfoVal :=
  let a := dictGet info "RS"
  if truthy a then a
  else if vid ≠ "" && pyStartsWith (pyLower vid) "rs" then some (.str vid)
  else none

/-- The per-line body of the `parse_vcf` loop: `none` for skipped lines
(empty, comment, fewer than 8 tab-separated fields, missing or
unsupported GENE), `some` record otherwise. -/
def parseLine (line : String) : Option VariantRecord :=
  if line == "" || pyStartsWith line "#" then none
  else
    let parts := splitOnChar '\t' (pyStrip line)
    if parts.length < 8 then none
    else
      let infoDict := (splitOnChar ';' (parts.getD 7 "")).foldl
        (fun dct kv =>
          match splitEq1 kv.data with
          | some p => dictInsert dct (pyUpper (String.mk p.1)) (.str (String.mk p.2))
          | none => dictInsert dct (pyUpper kv) .flag) []
      match dictGet infoDict "GENE" with
      | some (.str g) =>
        if memStr g SUPPORTED_GENES then
          some ⟨parts.getD 0 "", parts.getD 1 "", parts.getD 2 "", parts.getD 3 "",
                parts.getD 4 "", infoDict, g, starsOfRaw (dictGet infoDict "STAR"),
                rsOf infoDict (parts.getD 2 "")⟩
        else none
      | _ => none

/-- The line loop of `parse_vcf` (everything after the size check). -/
def parse_vcf_lines (content : String) : List VariantRecord :=
  (pySplitlines content).filterMap parseLine

/-- The one failure `parse_vcf` can raise. -/
inductive ParseError where
  | sizeLimit
deriving DecidableEq

/-- `parse_vcf(content, max_bytes)`: reject when the UTF-8 encoding
exceeds the ceiling (before any line is processed), otherwise parse every
line. -/
def parse_vcf (content : String) (maxBytes : Nat) :
    Except ParseError (List VariantRecord) :=
  if content.utf8ByteSize > maxBytes then .error .sizeLimit
  else .ok (parse_vcf_lines content)

/-- `LOSS_CYP2D6` of the source. -/
def LOSS_CYP2D6 : List String := ["*3", "*4", "*5", "*6"]

/-- `DECREASED_CYP2D6` of the source. -/
def DECREASED_CYP2D6 : List String := ["*17", "*41"]

/-- `LOSS_CYP2C19` of the source. -/
def LOSS_CYP2C19 : List String := ["*2", "*3", "*4"]

/-- `LOSS_CYP2C9` of the source. -/
def LOSS_CYP2C9 : List String := ["*2", "*3"]

/-- `LOSS_TPMT` of the source. -/
def LOSS_TPMT : List String := ["*2", "*3A", "*3B", "*3C"]

/-- `REDUCED_DPYD` of the source. -/
def REDUCED_DPYD : List String := ["*2A", "*13"]

/-- `CRITICAL_RS_DPYD` of the source. -/
def CRITICAL_RS_DPYD : List String := ["RS3918290", "RS55886062"]

/-- `SLCO1B1_DECREASED` of the source. -/
def SLCO1B1_DECREASED : List String := ["*5", "RS4149056"]

/-- One step of the order-preserving, upper-casing deduplication loop of
`determine_diplotype`. -/
def uniqStep (u : List String) (s : String) : List String :=
  let t := pyUpper s
  if memStr t u then u else u ++ [t]

/-- The `uniq` list of `determine_diplotype`: upper-case and deduplicate
preserving first-seen order. -/
def uniqUpper (stars : List String) : List String := stars.foldl uniqStep []

/-- The tail of `determine_diplotype` after deduplication: move the first
`XN`-containing token to the front, then join the first two tokens with
`/`, or pair a single token with `*1`.  The empty case cannot arise from a
non-empty star list; it mirrors the fact that the source would never index
an empty `base`. -/
def diplotypeOfUniq (uniq : List String) : String :=
  let dup := uniq.find? (fun u => pyIn "XN" u)
  let base :=
    match dup with
    | some dd => dd :: uniq.filter (fun u => u ≠ dd)
    | none => uniq
  match base with
  | a :: b :: _ => a ++ "/" ++ b
  | [a] => a ++ "/*1"
  | [] => "Unknown"

set_option linter.unusedVariables false in
/-- `determine_diplotype(variants, gene)` (the `gene` argument is unused
in the source as well). -/
def determine_diplotype (variants : List VariantRecord) (gene : String) : String :=
  let stars := variants.foldl (fun acc v => acc ++ v.stars) []
  if stars = [] then "Unknown"
  else diplotypeOfUniq (uniqUpper stars)

/-- `phenotype_from_diplotype(gene, diplotype)`: per-gene rule chains over
substring containment in the upper-cased diplotype string. -/
def phenotype_from_diplotype (gene diplotype : String) : String :=
  let g := pyUpper gene
  let d := pyUpper diplotype
  if g = "CYP2D6" then
    if LOSS_CYP2D6.any (fun a => pyIn a d) && LOSS_CYP2D6.any (fun b => pyIn b d) then "PM"
    else if LOSS_CYP2D6.any (fun a => pyIn a d) && pyIn "*1" d then "IM"
    else if DECREASED_CYP2D6.any (fun a => pyIn a d) then "IM"
    else if pyIn "XN" d then "URM"
    else "NM"
  else if g = "CYP2C19" then
    if LOSS_CYP2C19.any (fun a => pyIn a d) && LOSS_CYP2C19.any (fun b => pyIn b d) then "PM"
    else if LOSS_CYP2C19.any (fun a => pyIn a d) && pyIn "*1" d then "IM"
    else if pyIn "*17" d && pyIn "*1" d then "RM"
    else "NM"
  else if g = "CYP2C9" then
    if LOSS_CYP2C9.any (fun a => pyIn a d) && LOSS_CYP2C9.any (fun b => pyIn b d) then "PM"
    else if LOSS_CYP2C9.any (fun a => pyIn a d) && pyIn "*1" d then "IM"
    else "NM"
  else if g = "SLCO1B1" then
    if SLCO1B1_DECREASED.any (fun a => pyIn a d) then "IM"
    else "NM"
  else if g = "TPMT" then
    if LOSS_TPMT.any (fun a => pyIn a d) && LOSS_TPMT.any (fun b => pyIn b d) then "PM"
    else if LOSS_TPMT.any (fun a => pyIn a d) && pyIn "*1" d then "IM"
    else "NM"
  else if g = "DPYD" then
    if REDUCED_DPYD.any (fun a => pyIn a d) || CRITICAL_RS_DPYD.any (fun r => pyIn r d) then
      if (REDUCED_DPYD.filter (fun a => pyIn a d)).length
          + (CRITICAL_RS_DPYD.filter (fun r => pyIn r d)).length ≥ 2 then "PM"
      else "IM"
    else "NM"
  else "Unknown"

/-- The dict `risk_for_drug` returns. -/
structure RiskAssessment where
  risk_label : String
  confidence_score : ℚ
  severity : String
  cpic : String
  action : String
  dose : String
deriving DecidableEq

/-- Round a rational to two decimals (round half up); every confidence
constant of the source is an exact hundredth, so the scaled value is an
integer, no half case can arise, and this agrees with the source's
`round(confidence, 2)` and is value-preserving there. -/
def round2 (q : ℚ) : ℚ := mkRat (Int.fdiv (q.num * 200 + (q.den : ℤ)) (2 * (q.den : ℤ))) 100

/-- Assemble the returned dict, applying the source's `round(confidence, 2)`. -/
def mkRisk (label : String) (conf : ℚ) (sev cpic act dose : String) : RiskAssessment :=
  ⟨label, round2 conf, sev, cpic, act, dose⟩

/-- `risk_for_drug(drug, gene, phenotype)`: the static rule table, with
the unmatched-pair defaults (`Unknown`, `none`, confidence 0.6,
"Insufficient evidence for gene-drug pair"). -/
def risk_for_drug (drug gene phenotype : String) : RiskAssessment :=
  let dr := pyUpper drug
  let ph := pyUpper phenotype
  if dr = "CODEINE" ∧ gene = "CYP2D6" then
    if ph = "PM" then
      mkRisk "Ineffective" (mkRat 92 100) "moderate" "CPIC Guideline for Codeine and CYP2D6"
        "Avoid codeine; use alternative analgesic" ""
    else if ph = "URM" ∨ ph = "RM" then
      mkRisk "Toxic" (mkRat 92 100) "high" "CPIC Guideline for Codeine and CYP2D6"
        "Avoid codeine due to risk of toxicity" ""
    else if ph = "IM" then
      mkRisk "Adjust Dosage" (mkRat 82 100) "low" "CPIC Guideline for Codeine and CYP2D6"
        "Consider alternative or monitor closely" "Consider lower dose"
    else
      mkRisk "Safe" (mkRat 72 100) "none" "CPIC Guideline for Codeine and CYP2D6"
        "Standard dosing" ""
  else if dr = "WARFARIN" ∧ gene = "CYP2C9" then
    if ph = "PM" then
      mkRisk "Toxic" (mkRat 86 100) "high" "CPIC Guideline for Warfarin and CYP2C9"
        "Reduce initial dose and monitor INR closely" "Lower dose"
    else if ph = "IM" then
      mkRisk "Adjust Dosage" (mkRat 82 100) "moderate" "CPIC Guideline for Warfarin and CYP2C9"
        "Use lower initial dose; frequent INR monitoring" "Lower dose"
    else
      mkRisk "Safe" (mkRat 76 100) "none" "CPIC Guideline for Warfarin and CYP2C9"
        "Standard dosing with INR monitoring" ""
  else if dr = "CLOPIDOGREL" ∧ gene = "CYP2C19" then
    if ph = "PM" then
      mkRisk "Ineffective" (mkRat 91 100) "high" "CPIC Guideline for Clopidogrel and CYP2C19"
        "Use alternative antiplatelet (e.g., prasugrel, ticagrelor)" ""
    else if ph = "IM" then
      mkRisk "Adjust Dosage" (mkRat 86 100) "moderate" "CPIC Guideline for Clopidogrel and CYP2C19"
        "Consider alternative therapy or enhanced platelet inhibition" ""
    else
      mkRisk "Safe" (mkRat 76 100) "none" "CPIC Guideline for Clopidogrel and CYP2C19"
        "Standard dosing" ""
  else if dr = "SIMVASTATIN" ∧ gene = "SLCO1B1" then
    if ph = "PM" ∨ ph = "IM" then
      mkRisk "Toxic" (mkRat 82 100) "moderate" "CPIC Guideline for Simvastatin and SLCO1B1"
        "Consider lower dose or alternative statin due to myopathy risk" "Lower dose or switch"
    else
      mkRisk "Safe" (mkRat 76 100) "none" "CPIC Guideline for Simvastatin and SLCO1B1"
        "Standard dosing" ""
  else if dr = "AZATHIOPRINE" ∧ gene = "TPMT" then
    if ph = "PM" then
      mkRisk "Toxic" (mkRat 92 100) "critical" "CPIC Guideline for Thiopurines and TPMT"
        "Use drastically reduced dose or alternative; monitor for myelosuppression"
        "Reduce dose by 90% or avoid"
    else if ph = "IM" then
      mkRisk "Adjust Dosage" (mkRat 87 100) "high" "CPIC Guideline for Thiopurines and TPMT"
        "Use reduced dose and monitor" "Reduce dose 30-70%"
    else
      mkRisk "Safe" (mkRat 76 100) "none" "CPIC Guideline for Thiopurines and TPMT"
        "Standard dosing" ""
  else if dr = "FLUOROURACIL" ∧ gene = "DPYD" then
    if ph = "PM" then
      mkRisk "Toxic" (mkRat 92 100) "critical" "CPIC Guideline for Fluoropyrimidines and DPYD"
        "Avoid or use greatly reduced dose; consider alternative" "Avoid or reduce >50%"
    else if ph = "IM" then
      mkRisk "Adjust Dosage" (mkRat 87 100) "high" "CPIC Guideline for Fluoropyrimidines and DPYD"
        "Use reduced dose with close monitoring" "Reduce 25-50%"
    else
      mkRisk "Safe" (mkRat 76 100) "none" "CPIC Guideline for Fluoropyrimidines and DPYD"
        "Standard dosing" ""
  else
    mkRisk "Unknown" (mkRat 60 100) "none" "" "Insufficient evidence for gene-drug pair" ""

/-- The drug-to-primary-gene map defined inside the `/analyze` loop. -/
def gene_map : List (String × String) :=
  [("CODEINE", "CYP2D6"), ("WARFARIN", "CYP2C9"), ("CLOPIDOGREL", "CYP2C19"),
   ("SIMVASTATIN", "SLCO1B1"), ("AZATHIOPRINE", "TPMT"), ("FLUOROURACIL", "DPYD")]

/-- `gene_map.get(drug)`; every drug reaching the loop is supported, so
the empty-string default is never consulted for supported drugs. -/
def primaryGeneOf (drug : String) : String :=
  (((gene_map.find? (fun p => p.1 = drug)).map Prod.snd)).getD ""

/-- The per-drug pipeline core produced by one iteration of the
`/analyze` loop. -/
structure DrugReportCore where
  primary_gene : String
  diplotype : String
  phenotype : String
  risk : RiskAssessment
  missing_annotations : Bool
deriving DecidableEq

/-- One iteration of the `/analyze` loop over the parsed variants: filter
to the drug's primary gene, call the diplotype, classify the phenotype
(`Unknown` passes through), look up the risk, and compute the
`missing_annotations` quality flag. -/
def analyze_drug (variants : List VariantRecord) (drug : String) : DrugReportCore :=
  let pg := primaryGeneOf drug
  let gene_vars := variants.filter (fun v => v.gene = pg)
  let diplotype := determine_diplotype gene_vars pg
  let phenotype :=
    if diplotype ≠ "Unknown" then phenotype_from_diplotype pg diplotype else "Unknown"
  let risk := risk_for_drug drug pg phenotype
  let missing :=
    gene_vars.isEmpty || !(gene_vars.any (fun v => !v.stars.isEmpty))
      || !(gene_vars.any (fun v => truthy v.rs))
  ⟨pg, diplotype, phenotype, risk, missing⟩

/-- A single-record variant list carrying a given star list, used to
present a token sequence to the diplotype caller. -/
def recOfStars (l : List String) : VariantRecord :=
  ⟨"1", "1", ".", "A", "G", [], "CYP2D6", l, none⟩

/-- A VCF data line whose INFO field is `GENE=CYP2D6;STAR=4,4`. -/
def vcfLine1 : String := "1\t100\t.\tA\tG\t.\tPASS\tGENE=CYP2D6;STAR=4,4"

/-- The record the parser emits for `vcfLine1`. -/
def rec1 : VariantRecord :=
  ⟨"1", "100", ".", "A", "G",
   [("GENE", InfoVal.str "CYP2D6"), ("STAR", InfoVal.str "4,4")],
   "CYP2D6", ["*4", "*4"], none⟩

/-- A VCF data line carrying only a GENE tag (no STAR, no rsID). -/
def vcfLine2 : String := "1\t2\t3\tA\tG\t.\t.\tGENE=TPMT"

/-- The record the parser emits for `vcfLine2`. -/
def rec2 : VariantRecord :=
  ⟨"1", "2", "3", "A", "G", [("GENE", InfoVal.str "TPMT")], "TPMT", [], none⟩

/-! ## Helper lemmas -/

theorem memStr_iff {s : String} {l : List String} : memStr s l = true ↔ s ∈ l := by
  induction l with
  | nil => simp [memStr]
  | cons t ts ih =>
    simp only [memStr, Bool.or_eq_true, decide_eq_true_eq, ih, List.mem_cons]
    constructor
    · rintro (rfl | h)
      · exact Or.inl rfl
      · exact Or.inr h
    · rintro (rfl | h)
      · exact Or.inl rfl
      · exact Or.inr h

theorem parse_vcf_ok {content : String} {mb : Nat} {vars : List VariantRecord}
    (h : parse_vcf content mb = Except.ok vars) : vars = parse_vcf_lines content := by
  unfold parse_vcf at h
  split at h
  · cases h
  · injection h with h
    exact h.symm

theorem parseLine_some {line : String} {r : VariantRecord}
    (h : parseLine line = some r) :
    r.gene ∈ SUPPORTED_GENES ∧ r.stars = starsOfRaw (dictGet r.info "STAR") := by
  simp only [parseLine] at h
  split at h
  · cases h
  · split at h
    · cases h
    · split at h
      · split at h
        · injection h with h
          subst h
          refine ⟨memStr_iff.mp (by assumption), rfl⟩
        · cases h
      · cases h

theorem mem_foldl_uniqStep (l : List String) (u : List String) (t : String)
    (h : t ∈ u) : t ∈ l.foldl uniqStep u := by
  induction l generalizing u with
  | nil => exact h
  | cons s ls ih =>
    rw [List.foldl_cons]
    apply ih
    simp only [uniqStep]
    split
    · exact h
    · exact List.mem_append_left _ h

theorem mem_map_foldl_uniqStep (l : List String) (u : List String) (x : String)
    (h : pyUpper x ∈ l.map pyUpper) : pyUpper x ∈ l.foldl uniqStep u := by
  induction l generalizing u with
  | nil => simp at h
  | cons s ls ih =>
    rw [List.map_cons, List.mem_cons] at h
    rw [List.foldl_cons]
    rcases h with h | h
    · apply mem_foldl_uniqStep
      simp only [uniqStep]
      split
      · rw [h]
        exact memStr_iff.mp (by assumption)
      · rw [h]
        exact List.mem_append_right _ (by simp)
    · exact ih _ h

theorem uniqStep_mem (u : List String) (x : String) (h : pyUpper x ∈ u) :
    uniqStep u x = u := by
  simp only [uniqStep]
  rw [if_pos (memStr_iff.mpr h)]

theorem foldl_stars_nil (l : List VariantRecord) (acc : List String)
    (h : ∀ v ∈ l, v.stars = []) :
    l.foldl (fun acc v => acc ++ v.stars) acc = acc := by
  induction l generalizing acc with
  | nil => rfl
  | cons a t ih =>
    rw [List.foldl_cons, h a (by simp), List.append_nil]
    exact ih _ (fun v hv => h v (by simp [hv]))

theorem startsWithCh_append (l n m : List Char)
    (h : startsWithCh l (n ++ m) = true) : startsWithCh l n = true := by
  induction n generalizing l with
  | nil => cases l <;> rfl
  | cons c cs ih =>
    cases l with
    | nil => simp [startsWithCh] at h
    | cons a as =>
      rw [List.cons_append] at h
      unfold startsWithCh at h ⊢
      rw [Bool.and_eq_true] at h ⊢
      exact ⟨h.1, ih as h.2⟩

theorem containsCh_append (hay n m : List Char)
    (h : containsCh hay (n ++ m) = true) : containsCh hay n = true := by
  induction hay with
  | nil =>
    cases n with
    | nil => rfl
    | cons c cs => simp [containsCh] at h
  | cons a as ih =>
    unfold containsCh at h ⊢
    rw [Bool.or_eq_true] at h ⊢
    rcases h with h | h
    · exact Or.inl (startsWithCh_append _ _ _ h)
    · exact Or.inr (ih h)

theorem pyIn_star1_of_star17 (s : String) (h : pyIn "*17" s = true) :
    pyIn "*1" s = true := by
  unfold pyIn at h ⊢
  have e : ("*17" : String).data = ("*1" : String).data ++ ['7'] := rfl
  rw [e] at h
  exact containsCh_append _ _ _ h

/-! ## Claims -/

/-- C1 (counterexample to the claim as stated): parsing the VCF data line
with INFO `GENE=CYP2D6;STAR=4,4` yields one CYP2D6 record with stars
`["*4","*4"]`, but the diplotype caller deduplicates the repeated allele
and returns `"*4/*1"`, not `"*4/*4"` as the claim asserts. -/
theorem C1_counterexample :
    (parse_vcf_lines vcfLine1).map (fun r => (r.gene, r.stars)) = [("CYP2D6", ["*4", "*4"])] ∧
    determine_diplotype (parse_vcf_lines vcfLine1) "CYP2D6" ≠ "*4/*4" := by decide

/-- C1 (amended): parsing a VCF data line whose INFO field is
`GENE=CYP2D6;STAR=4,4` yields one CYP2D6 VariantRecord with stars
`["*4","*4"]`; the diplotype caller deduplicates the repeated allele and
returns `"*4/*1"`; the phenotype classifier on (CYP2D6, that diplotype)
returns `"PM"`; and the risk engine on (CODEINE, CYP2D6, PM) returns
risk_label `"Ineffective"`, severity `"moderate"`, confidence 0.92. -/
theorem C1_roundtrip :
    (parse_vcf_lines vcfLine1).map (fun r => (r.gene, r.stars)) = [("CYP2D6", ["*4", "*4"])] ∧
    determine_diplotype (parse_vcf_lines vcfLine1) "CYP2D6" = "*4/*1" ∧
    phenotype_from_diplotype "CYP2D6"
      (determine_diplotype (parse_vcf_lines vcfLine1) "CYP2D6") = "PM" ∧
    risk_for_drug "CODEINE" "CYP2D6" "PM" =
      ⟨"Ineffective", mkRat 92 100, "moderate", "CPIC Guideline for Codeine and CYP2D6",
       "Avoid codeine; use alternative analgesic", ""⟩ := by decide

/-- C2 (evaluation of the code at the failing input): the classifier
returns `"PM"` for the CYP2D6 diplotype `"*4/*1"`, not the `"IM"` the
claim requires — the first rule tests the same `any` containment
condition twice, so one loss-of-function allele already triggers it and
the dedicated one-loss-of-function-with-`*1` branch can never fire. -/
theorem C2_code_eval :
    phenotype_from_diplotype "CYP2D6" "*4/*1" = "PM" ∧ ("PM" : String) ≠ "IM" := by decide

/-- C3: for CYP2D6, CYP2C19, CYP2C9 and TPMT, the "both alleles
loss-of-function" test evaluates the same substring-containment condition
twice over the same diplotype string, so any diplotype containing at
least one loss-of-function token of the gene's table is classified `PM`;
in particular the later one-loss-of-function-with-`*1` branch (whose
guard implies the hypothesis here) is unreachable. -/
theorem C3_pm_dominates (d : String) :
    (LOSS_CYP2D6.any (fun a => pyIn a (pyUpper d)) = true →
      phenotype_from_diplotype "CYP2D6" d = "PM") ∧
    (LOSS_CYP2C19.any (fun a => pyIn a (pyUpper d)) = true →
      phenotype_from_diplotype "CYP2C19" d = "PM") ∧
    (LOSS_CYP2C9.any (fun a => pyIn a (pyUpper d)) = true →
      phenotype_from_diplotype "CYP2C9" d = "PM") ∧
    (LOSS_TPMT.any (fun a => pyIn a (pyUpper d)) = true →
      phenotype_from_diplotype "TPMT" d = "PM") := by
  refine ⟨fun h => ?_, fun h => ?_, fun h => ?_, fun h => ?_⟩
  · simp only [phenotype_from_diplotype]
    rw [show pyUpper "CYP2D6" = "CYP2D6" from by decide, if_pos rfl, h]
    simp
  · simp only [phenotype_from_diplotype]
    rw [show pyUpper "CYP2C19" = "CYP2C19" from by decide,
        if_neg (by decide : ¬("CYP2C19" : String) = "CYP2D6"), if_pos rfl, h]
    simp
  · simp only [phenotype_from_diplotype]
    rw [show pyUpper "CYP2C9" = "CYP2C9" from by decide,
        if_neg (by decide : ¬("CYP2C9" : String) = "CYP2D6"),
        if_neg (by decide : ¬("CYP2C9" : String) = "CYP2C19"), if_pos rfl, h]
    simp
  · simp only [phenotype_from_diplotype]
    rw [show pyUpper "TPMT" = "TPMT" from by decide,
        if_neg (by decide : ¬("TPMT" : String) = "CYP2D6"),
        if_neg (by decide : ¬("TPMT" : String) = "CYP2C19"),
        if_neg (by decide : ¬("TPMT" : String) = "CYP2C9"),
        if_neg (by decide : ¬("TPMT" : String) = "SLCO1B1"), if_pos rfl, h]
    simp

/-- Witness for C3 at concrete diplotypes with a single loss-of-function
allele next to `*1`. -/
theorem C3_witness :
    phenotype_from_diplotype "CYP2D6" "*4/*1" = "PM" ∧
    phenotype_from_diplotype "CYP2C19" "*2/*1" = "PM" ∧
    phenotype_from_diplotype "CYP2C9" "*3/*1" = "PM" ∧
    phenotype_from_diplotype "TPMT" "*3A/*1" = "PM" :=
  ⟨(C3_pm_dominates "*4/*1").1 (by decide),
   (C3_pm_dominates "*2/*1").2.1 (by decide),
   (C3_pm_dominates "*3/*1").2.2.1 (by decide),
   (C3_pm_dominates "*3A/*1").2.2.2 (by decide)⟩

/-- C4 (counterexample to the claim as stated): `["*4","*5"]` and
`["*5","*4"]` are the same multiset of XN-free tokens presented in two
orders, yet the deduplicated sequences differ and the diplotype caller
returns `"*4/*5"` for one and `"*5/*4"` for the other. -/
theorem C4_counterexample :
    (["*4", "*5"] : List String).Perm ["*5", "*4"] ∧
    (["*4", "*5"] : List String).all (fun t => !(pyIn "XN" t)) = true ∧
    determine_diplotype [recOfStars ["*4", "*5"]] "CYP2D6" = "*4/*5" ∧
    determine_diplotype [recOfStars ["*5", "*4"]] "CYP2D6" = "*5/*4" ∧
    ("*4/*5" : String) ≠ "*5/*4" := by decide

/-- C4 (amended): the diplotype depends only on the first-seen-wins,
upper-cased deduplicated token sequence — inserting an extra occurrence
of a token whose upper-cased form already occurs earlier changes neither
the deduplicated sequence nor the diplotype; orders that change the
sequence of first occurrences may swap the allele order instead. -/
theorem C4_dedup_insensitive (pre post : List String) (x g : String)
    (h : pyUpper x ∈ pre.map pyUpper) :
    uniqUpper (pre ++ x :: post) = uniqUpper (pre ++ post) ∧
    determine_diplotype [recOfStars (pre ++ x :: post)] g =
      determine_diplotype [recOfStars (pre ++ post)] g := by
  have hpre : pre ≠ [] := by
    rintro rfl
    simp at h
  have key : uniqUpper (pre ++ x :: post) = uniqUpper (pre ++ post) := by
    unfold uniqUpper
    rw [List.foldl_append, List.foldl_append, List.foldl_cons,
        uniqStep_mem _ _ (mem_map_foldl_uniqStep pre [] x h)]
  refine ⟨key, ?_⟩
  simp only [determine_diplotype]
  have hs1 : [recOfStars (pre ++ x :: post)].foldl (fun acc v => acc ++ v.stars) []
      = pre ++ x :: post := rfl
  have hs2 : [recOfStars (pre ++ post)].foldl (fun acc v => acc ++ v.stars) []
      = pre ++ post := rfl
  rw [hs1, hs2, if_neg (by simp), if_neg (by simp [hpre]), key]

/-- Witness for C4: a duplicate `*4` inserted after its first occurrence
leaves both the deduplicated sequence and the diplotype unchanged. -/
theorem C4_witness :
    uniqUpper ["*4", "*5", "*4"] = uniqUpper ["*4", "*5"] ∧
    determine_diplotype [recOfStars ["*4", "*5", "*4"]] "CYP2D6" =
      determine_diplotype [recOfStars ["*4", "*5"]] "CYP2D6" :=
  C4_dedup_insensitive ["*4", "*5"] [] "*4" "CYP2D6" (by decide)

/-- C5 (counterexample to the claim as stated): the record parsed from a
line with `STAR=4,4` carries stars `["*4","*4"]`, which is not
duplicate-free — the parser does not deduplicate stars within a record. -/
theorem C5_counterexample :
    ∃ r ∈ parse_vcf_lines vcfLine1, ¬ r.stars.Nodup := by decide

/-- C5 (amended): in every VariantRecord emitted by the parser, the stars
sequence is exactly the normalized token sequence of the record's STAR
INFO value, duplicates retained (deduplication happens only later, in the
diplotype caller); the same token may appear in distinct records. -/
theorem C5_stars_from_raw (content : String) (mb : Nat) (vars : List VariantRecord)
    (hp : parse_vcf content mb = Except.ok vars) (r : VariantRecord) (hr : r ∈ vars) :
    r.stars = starsOfRaw (dictGet r.info "STAR") := by
  have hv := parse_vcf_ok hp
  subst hv
  obtain ⟨line, _, hl⟩ := List.mem_filterMap.mp hr
  exact (parseLine_some hl).2

/-- Witness for C5 at the `GENE=CYP2D6;STAR=4,4` line. -/
theorem C5_witness : rec1.stars = starsOfRaw (dictGet rec1.info "STAR") :=
  C5_stars_from_raw vcfLine1 5000000 [rec1] rfl rec1 (by simp)

/-- C6: for a parsed VCF and a supported drug, if every parsed variant of
the drug's primary gene carries no star tokens, the per-drug analysis
yields diplotype `Unknown` and phenotype `Unknown` (and, the embedding
being total past the parse, no failure is possible). -/
theorem C6_no_stars_unknown (content : String) (drug : String) (vars : List VariantRecord)
    (hd : drug ∈ SUPPORTED_DRUGS)
    (hp : parse_vcf content 5000000 = Except.ok vars)
    (hs : ∀ v ∈ vars, v.gene = primaryGeneOf drug → v.stars = []) :
    (analyze_drug vars drug).diplotype = "Unknown" ∧
    (analyze_drug vars drug).phenotype = "Unknown" := by
  have hdip : determine_diplotype
      (vars.filter (fun v => v.gene = primaryGeneOf drug)) (primaryGeneOf drug) = "Unknown" := by
    have hnil : (vars.filter (fun v => v.gene = primaryGeneOf drug)).foldl
        (fun acc v => acc ++ v.stars) [] = [] := by
      apply foldl_stars_nil
      intro v hv
      have hv2 := List.mem_filter.mp hv
      exact hs v hv2.1 (of_decide_eq_true hv2.2)
    simp [determine_diplotype, hnil]
  constructor
  · simpa only [analyze_drug] using hdip
  · simp only [analyze_drug, hdip]
    simp

/-- Witness for C6: the empty VCF parses to no variants and CODEINE
reports diplotype and phenotype `Unknown`. -/
theorem C6_witness :
    (analyze_drug [] "CODEINE").diplotype = "Unknown" ∧
    (analyze_drug [] "CODEINE").phenotype = "Unknown" :=
  C6_no_stars_unknown "" "CODEINE" [] (by decide) rfl (by simp)

/-- C7: whenever the (upper-cased drug, gene) pair is not one of the six
known associations — the gene is not the drug's expected primary gene or
the drug is unmapped — the risk engine returns the baseline record:
risk_label `Unknown`, severity `none`, action "Insufficient evidence for
gene-drug pair", empty guideline reference and dose, confidence 0.6. -/
theorem C7_default_unknown (drug gene phenotype : String)
    (h : (pyUpper drug, gene) ∉ gene_map) :
    risk_for_drug drug gene phenotype =
      ⟨"Unknown", mkRat 60 100, "none", "", "Insufficient evidence for gene-drug pair", ""⟩ := by
  simp only [gene_map, List.mem_cons, List.not_mem_nil, or_false, Prod.mk.injEq, not_or,
    not_and] at h
  obtain ⟨h1, h2, h3, h4, h5, h6⟩ := h
  simp only [risk_for_drug, mkRisk]
  rw [if_neg (fun hc => h1 hc.1 hc.2), if_neg (fun hc => h2 hc.1 hc.2),
      if_neg (fun hc => h3 hc.1 hc.2), if_neg (fun hc => h4 hc.1 hc.2),
      if_neg (fun hc => h5 hc.1 hc.2), if_neg (fun hc => h6 hc.1 hc.2)]
  rw [show round2 (mkRat 60 100) = mkRat 60 100 from by decide]

/-- Witness for C7: CODEINE paired with SLCO1B1 (not its primary gene). -/
theorem C7_witness :
    risk_for_drug "CODEINE" "SLCO1B1" "PM" =
      ⟨"Unknown", mkRat 60 100, "none", "", "Insufficient evidence for gene-drug pair", ""⟩ :=
  C7_default_unknown "CODEINE" "SLCO1B1" "PM" (by decide)

/-- C8: the parser fails (with the size-limit error, its only error) if
and only if the UTF-8 byte length of the content exceeds the ceiling, and
otherwise returns exactly the records of the line loop — so below the
ceiling it never raises, and above it it raises before any line matters. -/
theorem C8_size_limit (content : String) (mb : Nat) :
    ((∃ e, parse_vcf content mb = Except.error e) ↔ mb < content.utf8ByteSize) ∧
    (parse_vcf content mb = Except.ok (parse_vcf_lines content) ↔
      content.utf8ByteSize ≤ mb) := by
  by_cases h : content.utf8ByteSize > mb
  · constructor
    · exact ⟨fun _ => h, fun _ => ⟨.sizeLimit, by simp [parse_vcf, h]⟩⟩
    · constructor
      · intro hok
        rw [parse_vcf, if_pos h] at hok
        cases hok
      · intro hle
        omega
  · constructor
    · constructor
      · rintro ⟨e, he⟩
        rw [parse_vcf, if_neg h] at he
        cases he
      · intro hlt
        omega
    · exact ⟨fun _ => by omega, fun _ => by rw [parse_vcf, if_neg h]⟩

/-- C9: filter soundness — every VariantRecord emitted by the parser has
its gene field in the six-gene supported set; records with a missing or
unsupported GENE value are never emitted. -/
theorem C9_gene_supported (content : String) (mb : Nat) (vars : List VariantRecord)
    (hp : parse_vcf content mb = Except.ok vars) (r : VariantRecord) (hr : r ∈ vars) :
    r.gene ∈ SUPPORTED_GENES := by
  have hv := parse_vcf_ok hp
  subst hv
  obtain ⟨line, _, hl⟩ := List.mem_filterMap.mp hr
  exact (parseLine_some hl).1

/-- Witness for C9 at a concrete one-line VCF. -/
theorem C9_witness : rec2.gene ∈ SUPPORTED_GENES :=
  C9_gene_supported vcfLine2 5000000 [rec2] rfl rec2 (by simp)

/-- C10: for CYP2C19, `"*1"` is a substring of `"*17"`, so any diplotype
containing `*17` passes the classifier's `*1` containment check; hence a
diplotype containing `*17` and no loss-of-function token (`*2`, `*3`,
`*4`) — including `*17/*17` without any true `*1` allele — is classified
`RM`. -/
theorem C10_star17_rm (d : String)
    (h17 : pyIn "*17" (pyUpper d) = true)
    (hloss : LOSS_CYP2C19.any (fun a => pyIn a (pyUpper d)) = false) :
    pyIn "*1" (pyUpper d) = true ∧
    phenotype_from_diplotype "CYP2C19" d = "RM" := by
  have h1 : pyIn "*1" (pyUpper d) = true := pyIn_star1_of_star17 _ h17
  refine ⟨h1, ?_⟩
  simp only [phenotype_from_diplotype]
  rw [show pyUpper "CYP2C19" = "CYP2C19" from by decide,
      if_neg (by decide : ¬("CYP2C19" : String) = "CYP2D6"), if_pos rfl, hloss, h17, h1]
  simp

/-- Witness for C10 at the diplotype `*17/*17`. -/
theorem C10_witness :
    pyIn "*1" (pyUpper "*17/*17") = true ∧
    phenotype_from_diplotype "CYP2C19" "*17/*17" = "RM" :=
  C10_star17_rm "*17/*17" (by decide) (by decide)
